import Mathlib

/-!
Verification of the cartero entity/tree data model, tree projection and
collection registry, shallowly embedded from the Rust sources
(`src/objects/collection.rs`, `src/widgets/collection_tree.rs`, `src/win.rs`).
Stateful Rust methods taking `&self` and mutating through glib objects or
GSettings are embedded as explicit state-passing functions; fallible lookups
return `Option`; glib `u32` positions are embedded as `Nat` (no wraparound
arithmetic occurs in any of the operations below).
-/

namespace Cartero

/-- Modelled from the spec: `src/objects/key_value_item.rs` is not under the
provided sources, only its callers are. The spec describes `KeyValueItem` as a
`header_name`/`header_value`/`active`/`secret` tuple, equal by value, created
default-constructed. -/
structure KeyValueItem where
  header_name : String
  header_value : String
  active : Bool
  secret : Bool
deriving DecidableEq, Repr

/-- Modelled from the spec: the default-constructed `KeyValueItem` (glib
defaults: empty strings, false flags). -/
def KeyValueItem.default : KeyValueItem :=
  { header_name := "", header_value := "", active := false, secret := false }

/-- Modelled from the spec: `src/objects/endpoint.rs` is not under the provided
sources. The spec treats `Endpoint` as an opaque tree-leaf value; we embed it as
an opaque wrapper around an identifying string. -/
structure Endpoint where
  url : String
deriving DecidableEq, Repr

/-- `imp::Collection` from `src/objects/collection.rs`: a `name` string and a
`variables` ListStore of `KeyValueItem`. The ListStore is embedded as an
ordered list; the store is created with `ListStore::with_type(KeyValueItem)`,
so every element is a `KeyValueItem` and the `downcast` in `variable_get`
always succeeds. The source `Collection` stores no requests sequence. -/
structure Collection where
  name : String
  «variables» : List KeyValueItem
deriving DecidableEq, Repr

/-- `Collection::new_with_title` builds the object with the given name and an
empty typed ListStore for the variables. -/
def new_with_title (name : String) : Collection :=
  { name := name, «variables» := [] }

/-- The glib property setter for `name` (derived from `#[property(get, set)]`);
it replaces the name and touches nothing else. -/
def Collection.set_name (c : Collection) (s : String) : Collection :=
  { c with name := s }

/-- `Collection::add_variable`: `self.variables().append(var)`. -/
def Collection.add_variable (c : Collection) (v : KeyValueItem) : Collection :=
  { c with «variables» := c.«variables» ++ [v] }

/-- `Collection::variable_count`: `self.variables().n_items()`. -/
def Collection.variable_count (c : Collection) : Nat :=
  c.«variables».length

/-- `Collection::variable_get`: `self.variables().item(pos)` followed by a
downcast that always succeeds on the typed store. -/
def Collection.variable_get (c : Collection) (pos : Nat) : Option KeyValueItem :=
  c.«variables»[pos]?

/-- `Collection::variable_del`: looks the item up with `variable_get`; when
found, removes position `pos` from the store and returns the item, otherwise
returns `None` and leaves the store as it was. The post-state is returned
alongside the result. -/
def Collection.variable_del (c : Collection) (pos : Nat) :
    Option KeyValueItem × Collection :=
  match c.variable_get pos with
  | some obj => (some obj, { c with «variables» := c.«variables».eraseIdx pos })
  | none => (none, c)

/-- Appending a whole sequence of variables in order, one `add_variable` call
per item (the iteration pattern used by the callers and tests). -/
def Collection.add_variables (c : Collection) (vs : List KeyValueItem) : Collection :=
  vs.foldl Collection.add_variable c

/-- The objects that can appear in the collection tree: `Collection` roots and
the leaf objects (`KeyValueItem` children manufactured by the tree model, and
`Endpoint` leaves from the spec's variant set). `on_activate` type-dispatches
over exactly this set. -/
inductive TreeObject where
  | collection (c : Collection)
  | keyValueItem (k : KeyValueItem)
  | endpoint (e : Endpoint)
deriving DecidableEq, Repr

/-- The placeholder child manufactured by `init_tree_model` in
`src/widgets/collection_tree.rs`: a default `KeyValueItem` whose
`header_name` and `header_value` are both set to `"hola"`. -/
def placeholder_item : KeyValueItem :=
  { KeyValueItem.default with header_name := "hola", header_value := "hola" }

/-- The child-materialization closure passed to `TreeListModel::new` in
`init_tree_model`: if the object is a `Collection` (a root), it builds a fresh
ListStore containing the single placeholder item; any other object gets no
child model. Nothing from the collection itself is consulted. -/
def create_children : TreeObject → Option (List TreeObject)
  | .collection _ => some [.keyValueItem placeholder_item]
  | _ => none

/-- The rows contributed to the flat view by one node: the node's own row,
followed (when the node is expanded) by the rows of the child model that
`create_children` materializes. Collapsing discards the child model, and
re-expansion calls `create_children` again (`TreeListModel` with
`autoexpand = false`, `passthrough = false`). -/
def expanded_rows (obj : TreeObject) (expanded : Bool) : List TreeObject :=
  obj :: (if expanded then (create_children obj).getD [] else [])

/-- A `TreeListRow` handle as seen by `on_activate`: `row.item()` yields the
backing object, or nothing when the row has been destroyed. The source
unwraps this option. -/
structure TreeListRowRef where
  inner : Option TreeObject
deriving DecidableEq, Repr

/-- The outward effects `on_activate` can perform. `openCollectionPane` is the
call into `CarteroWindow::open_collection_pane`; `openLeafPane` is the
orchestrator's open-an-editing-surface-for-a-leaf callback from the spec's
interface vocabulary (the source never emits it); `debugPrint` is a plain
`println!` to stdout, which opens nothing. -/
inductive Dispatch where
  | openCollectionPane (c : Collection)
  | openLeafPane (k : KeyValueItem)
  | debugPrint (s : String)
deriving DecidableEq, Repr

/-- Result of running the activation handler: the list of dispatched effects,
or a panic (an `unwrap` on `None`). -/
inductive ActivateResult where
  | ok (dispatches : List Dispatch)
  | panicked
deriving DecidableEq, Repr

/-- `CollectionTree::on_activate` from `src/widgets/collection_tree.rs`.
`lookup` is `model.item(pos)` (`None` when the position no longer resolves,
e.g. the backing model was removed): on `None` the handler does nothing. On a
row, `row.item().unwrap()` panics if the row holds no item; otherwise the
handler dispatches on the object's runtime type: a `Collection` is passed to
`open_collection_pane`, a `KeyValueItem` only gets its header name printed,
and any other type (there is no `Endpoint` branch) falls through silently.
The environment acquisitions (`list.model()`, `list.root()`, the window
downcast) are embedded as given. The two leading debug `println!` calls are
omitted as they carry no model information. -/
def on_activate (lookup : Option TreeListRowRef) : ActivateResult :=
  match lookup with
  | none => .ok []
  | some row =>
    match row.inner with
    | none => .panicked
    | some (.collection c) => .ok [.openCollectionPane c]
    | some (.keyValueItem k) => .ok [.debugPrint k.header_name]
    | some (.endpoint _) => .ok []

/-- Number of "open collection" signals among the dispatched effects. -/
def count_open_collection (r : ActivateResult) : Nat :=
  match r with
  | .ok ds => (ds.filter fun d => match d with
      | .openCollectionPane _ => true
      | _ => false).length
  | .panicked => 0

/-- Number of "open leaf" signals among the dispatched effects. -/
def count_open_leaf (r : ActivateResult) : Nat :=
  match r with
  | .ok ds => (ds.filter fun d => match d with
      | .openLeafPane _ => true
      | _ => false).length
  | .panicked => 0

/-- The registry's error kinds used by `src/win.rs` (`src/error.rs` is not
under the provided sources; only these two variants are exercised by the
embedded operations). -/
inductive CarteroError where
  | AlreadyOpened
  | FileDialogError
deriving DecidableEq, Repr

/-- The registry state: the persisted `"open-collections"` GSettings list and
the sidebar / tree-projection root sequence (as the paths it displays). -/
structure RegistryState where
  open_collections : List String
  roots : List String
deriving DecidableEq, Repr

/-- Modelled from the spec: `Sidebar::sync_collections`
(`src/widgets/sidebar.rs` is not under the provided sources). The spec says it
resynchronizes the Tree Projection's roots against the now-updated persisted
set, in the same order. -/
def sync_collections (s : RegistryState) : RegistryState :=
  { s with roots := s.open_collections }

/-- `CarteroWindow::finish_open_collection` from `src/win.rs`: reads the
persisted `"open-collections"` list, fails with `AlreadyOpened` when the path
is already present (string equality), otherwise pushes the path at the end,
persists, and resynchronizes the sidebar. The `path.to_str()` failure branch
is the caller's concern (here the path is already a string), and the
persistent store is the out-of-scope collaborator, embedded as accepting the
write. The post-state is returned alongside the result. -/
def finish_open_collection (s : RegistryState) (path : String) :
    Except CarteroError Unit × RegistryState :=
  if s.open_collections.any (fun q => q == path) then
    (.error .AlreadyOpened, s)
  else
    (.ok (), sync_collections { s with open_collections := s.open_collections ++ [path] })

/-- `CarteroWindow::close_collection` from `src/win.rs`: retains every
persisted entry different from `path`, persists the result and resynchronizes
the sidebar. -/
def close_collection (s : RegistryState) (path : String) : RegistryState :=
  sync_collections
    { s with open_collections := s.open_collections.filter (fun p => p != path) }

/-- Appending a batch of variables concatenates them, in order, after the
existing store contents. -/
theorem add_variables_append (c : Collection) (vs : List KeyValueItem) :
    (Collection.add_variables c vs).«variables» = c.«variables» ++ vs := by
  induction vs generalizing c with
  | nil => simp [Collection.add_variables]
  | cons v vs ih =>
    show (Collection.add_variables (c.add_variable v) vs).«variables» = _
    rw [ih]
    simp [Collection.add_variable]

/-- C9: for every name string, constructing a collection with
`new_with_title` never fails (it is a total function) and yields a collection
with that name, an empty variables sequence (`variable_count` is `0`, every
lookup misses), and no request elements (the source `Collection` stores no
requests sequence at all). -/
theorem c9_new_collection_empty (name : String) :
    (new_with_title name).name = name
    ∧ (new_with_title name).«variables» = []
    ∧ (new_with_title name).variable_count = 0
    ∧ ∀ i, (new_with_title name).variable_get i = none := by
  refine ⟨rfl, rfl, rfl, fun i => ?_⟩
  simp [new_with_title, Collection.variable_get]

/-- C4: after appending `vs` in order to a fresh collection via
`add_variable`, `variable_count` equals the number of appended items and
`variable_get i` returns the `i`-th appended item unchanged for every
`i < vs.length`. -/
theorem c4_append_then_read (name : String) (vs : List KeyValueItem) :
    (Collection.add_variables (new_with_title name) vs).variable_count = vs.length
    ∧ ∀ i (hi : i < vs.length),
        (Collection.add_variables (new_with_title name) vs).variable_get i
          = some (vs.get ⟨i, hi⟩) := by
  have hv : (Collection.add_variables (new_with_title name) vs).«variables» = vs := by
    rw [add_variables_append]
    rfl
  constructor
  · simp [Collection.variable_count, hv]
  · intro i hi
    simp [Collection.variable_get, hv, List.getElem?_eq_getElem hi]

/-- A pair of concrete variables and a concrete collection used to witness the
variable-deletion theorem. -/
def c2_item_a : KeyValueItem :=
  { header_name := "a", header_value := "1", active := true, secret := false }

/-- Second concrete variable for the deletion witness. -/
def c2_item_b : KeyValueItem :=
  { header_name := "b", header_value := "2", active := false, secret := true }

/-- Concrete two-variable collection for the deletion witness. -/
def c2_coll : Collection :=
  { name := "w", «variables» := [c2_item_a, c2_item_b] }

/-- C2: for every index `i < variable_count`, `variable_del i` returns the
item at `i` (which exists), the new count is the old count minus one, every
item at a former index `j < i` is unchanged at `j`, and every item at a former
index above `i` is found one position lower with identical value (stated as:
position `j ≥ i` after deletion holds the former position `j + 1`). -/
theorem c2_variable_del_shift (c : Collection) (i : Nat) (h : i < c.variable_count) :
    (c.variable_del i).1 = c.variable_get i
    ∧ (c.variable_get i).isSome = true
    ∧ (c.variable_del i).2.variable_count = c.variable_count - 1
    ∧ (∀ j, j < i → (c.variable_del i).2.variable_get j = c.variable_get j)
    ∧ (∀ j, i ≤ j → (c.variable_del i).2.variable_get j = c.variable_get (j + 1)) := by
  have hlen : i < c.«variables».length := h
  have hget : c.variable_get i = some (c.«variables».get ⟨i, hlen⟩) := by
    simp [Collection.variable_get, List.getElem?_eq_getElem hlen]
  have hdel : c.variable_del i
      = (some (c.«variables».get ⟨i, hlen⟩),
         { c with «variables» := c.«variables».eraseIdx i }) := by
    simp [Collection.variable_del, hget]
  refine ⟨?_, ?_, ?_, ?_, ?_⟩
  · rw [hdel, hget]
  · rw [hget]
    rfl
  · rw [hdel]
    simpa [Collection.variable_count] using List.length_eraseIdx_of_lt hlen
  · intro j hj
    rw [hdel]
    simpa [Collection.variable_get] using List.getElem?_eraseIdx_of_lt _ _ _ hj
  · intro j hj
    rw [hdel]
    simpa [Collection.variable_get] using List.getElem?_eraseIdx_of_ge _ _ _ hj

/-- Witness for C2: deleting index `0` of a concrete two-variable collection
satisfies every conjunct of the deletion theorem. -/
theorem c2_witness :
    0 < c2_coll.variable_count
    ∧ ((c2_coll.variable_del 0).1 = c2_coll.variable_get 0
       ∧ (c2_coll.variable_get 0).isSome = true
       ∧ (c2_coll.variable_del 0).2.variable_count = c2_coll.variable_count - 1
       ∧ (∀ j, j < 0 → (c2_coll.variable_del 0).2.variable_get j = c2_coll.variable_get j)
       ∧ (∀ j, 0 ≤ j →
            (c2_coll.variable_del 0).2.variable_get j = c2_coll.variable_get (j + 1))) :=
  ⟨by decide, c2_variable_del_shift c2_coll 0 (by decide)⟩

/-- C3: for every index at or above the current count (in particular any index
on an empty sequence), `variable_get` returns `none` and `variable_del`
returns `none` with the collection entirely unchanged; neither panics (both
are total functions). -/
theorem c3_out_of_range_noop (c : Collection) (i : Nat) (h : c.variable_count ≤ i) :
    c.variable_get i = none ∧ c.variable_del i = (none, c) := by
  have hg : c.variable_get i = none := by
    simp [Collection.variable_get]
    exact h
  exact ⟨hg, by simp [Collection.variable_del, hg]⟩

/-- Witness for C3: looking up or deleting index `0` on a fresh empty
collection misses and changes nothing. -/
theorem c3_witness :
    (new_with_title "empty").variable_count ≤ 0
    ∧ ((new_with_title "empty").variable_get 0 = none
       ∧ (new_with_title "empty").variable_del 0 = (none, new_with_title "empty")) :=
  ⟨by decide, c3_out_of_range_noop (new_with_title "empty") 0 (by decide)⟩

/-- Concrete appended variables for the C4 witness. -/
def c4_items : List KeyValueItem :=
  [{ header_name := "x", header_value := "1", active := true, secret := false },
   { header_name := "y", header_value := "2", active := false, secret := false }]

/-- Witness for C4: appending two concrete items to a fresh collection gives
count `2` and reading back index `1` returns the second appended item. -/
theorem c4_witness :
    (Collection.add_variables (new_with_title "w") c4_items).variable_count
        = c4_items.length
    ∧ (Collection.add_variables (new_with_title "w") c4_items).variable_get 1
        = some (c4_items.get ⟨1, by decide⟩) :=
  ⟨(c4_append_then_read "w" c4_items).1,
   (c4_append_then_read "w" c4_items).2 1 (by decide)⟩

/-- C10: the variable operations never change the collection's name
(`variable_get` is read-only by construction — it returns an `Option` and no
state), and the `name` setter never changes the variables sequence; each
operation touches only the field it is about. -/
theorem c10_frame_conditions (c : Collection) (v : KeyValueItem) (i : Nat) (s : String) :
    (c.add_variable v).name = c.name
    ∧ ((c.variable_del i).2).name = c.name
    ∧ (c.set_name s).«variables» = c.«variables»
    ∧ (c.set_name s).name = s := by
  refine ⟨rfl, ?_, rfl, rfl⟩
  cases hg : c.variable_get i <;> simp [Collection.variable_del, hg]

/-- C1: expanding any `Collection` row materializes exactly one child row —
the manufactured placeholder (`header_name = header_value = "hola"`) — no
matter what the collection holds; the intended child rows are never produced
and the source `Collection` does not even store requests to read them from. -/
theorem c1_expand_materializes_placeholder (c : Collection) :
    create_children (.collection c) = some [.keyValueItem placeholder_item]
    ∧ expanded_rows (.collection c) true
        = [.collection c, .keyValueItem placeholder_item]
    ∧ ((create_children (.collection c)).getD []).length = 1 :=
  ⟨rfl, rfl, rfl⟩

/-- Concrete leaf item for the C7 counterexample. -/
def c7_leaf_item : KeyValueItem :=
  { header_name := "token", header_value := "12341234", active := true, secret := true }

/-- Counterexample for C7 as stated: activating a concrete bound leaf row (a
`KeyValueItem`) dispatches zero "open leaf" signals, not exactly one. -/
theorem c7_counterexample :
    count_open_leaf (on_activate (some ⟨some (.keyValueItem c7_leaf_item)⟩)) = 0
    ∧ ¬ count_open_leaf (on_activate (some ⟨some (.keyValueItem c7_leaf_item)⟩)) = 1 :=
  ⟨rfl, by decide⟩

/-- C7 (amended): activating a row backed by a `Collection` dispatches exactly
one "open collection" signal and zero "open leaf" signals; activating a leaf
row dispatches zero "open collection" and zero "open leaf" signals — the
`KeyValueItem` branch only prints the item's header name to stdout, and an
`Endpoint` row matches no branch and dispatches nothing. -/
theorem c7_activation_dispatch (c : Collection) (k : KeyValueItem) (e : Endpoint) :
    on_activate (some ⟨some (.collection c)⟩) = .ok [.openCollectionPane c]
    ∧ count_open_collection (on_activate (some ⟨some (.collection c)⟩)) = 1
    ∧ count_open_leaf (on_activate (some ⟨some (.collection c)⟩)) = 0
    ∧ count_open_collection (on_activate (some ⟨some (.keyValueItem k)⟩)) = 0
    ∧ count_open_leaf (on_activate (some ⟨some (.keyValueItem k)⟩)) = 0
    ∧ on_activate (some ⟨some (.keyValueItem k)⟩) = .ok [.debugPrint k.header_name]
    ∧ on_activate (some ⟨some (.endpoint e)⟩) = .ok [] :=
  ⟨rfl, rfl, rfl, rfl, rfl, rfl, rfl⟩

/-- C8: whenever every row handle the lookup can produce still holds its
backing item (the toolkit invariant for rows fetched live from the model),
activation never panics; when the item lookup yields nothing the activation is
a no-op that dispatches nothing, and a row of unrecognized type (an
`Endpoint`) likewise dispatches nothing. -/
theorem c8_unbound_activation_noop (lookup : Option TreeListRowRef)
    (hlive : ∀ r, lookup = some r → r.inner.isSome = true) :
    on_activate lookup ≠ ActivateResult.panicked
    ∧ (lookup = none → on_activate lookup = .ok [])
    ∧ (∀ e, lookup = some ⟨some (.endpoint e)⟩ → on_activate lookup = .ok []) := by
  refine ⟨?_, ?_, ?_⟩
  · cases lookup with
    | none => simp [on_activate]
    | some row =>
      obtain ⟨inner⟩ := row
      have hr := hlive ⟨inner⟩ rfl
      cases inner with
      | none => simp at hr
      | some t => cases t <;> simp [on_activate]
  · intro hl
    subst hl
    rfl
  · intro e hl
    subst hl
    rfl

/-- Witness for C8: the empty lookup (the backing model was removed) satisfies
the liveness hypothesis vacuously, and activation on it is a no-op. -/
theorem c8_witness :
    (∀ r, (none : Option TreeListRowRef) = some r → r.inner.isSome = true)
    ∧ (on_activate none ≠ ActivateResult.panicked
       ∧ ((none : Option TreeListRowRef) = none → on_activate none = .ok [])
       ∧ (∀ e, (none : Option TreeListRowRef) = some ⟨some (.endpoint e)⟩ →
            on_activate none = .ok [])) :=
  ⟨fun _ h => (nomatch h),
   c8_unbound_activation_noop none (fun _ h => (nomatch h))⟩

/-- C5: opening a path that is already in the persisted open-collections set
fails with `AlreadyOpened` and returns the registry state unchanged — the path
is not appended, the persisted set keeps its length and contents, and the
sidebar roots are not resynchronized. -/
theorem c5_open_duplicate_rejected (s : RegistryState) (path : String)
    (h : path ∈ s.open_collections) :
    finish_open_collection s path = (Except.error CarteroError.AlreadyOpened, s) := by
  have ha : s.open_collections.any (fun q => q == path) = true := by
    simp only [List.any_eq_true]
    exact ⟨path, h, by simp⟩
  simp [finish_open_collection, ha]

/-- Witness for C5: opening `"A"` when the persisted set is `["A"]` fails with
`AlreadyOpened` and leaves the state exactly as it was. -/
theorem c5_witness :
    "A" ∈ (RegistryState.mk ["A"] ["A"]).open_collections
    ∧ finish_open_collection ⟨["A"], ["A"]⟩ "A"
        = (Except.error CarteroError.AlreadyOpened, ⟨["A"], ["A"]⟩) :=
  ⟨by decide, c5_open_duplicate_rejected ⟨["A"], ["A"]⟩ "A" (by decide)⟩

/-- C6: `close_collection` removes exactly the entries equal to the closed
path (an order-preserving filter of the persisted set), so the path is gone
afterwards; the roots are resynchronized against the updated persisted set;
closing an absent path is not an error and — on a synchronized state —
changes nothing; and the scenario open `"A"`, open `"B"`, close `"A"` from an
empty registry leaves the persisted set (and the roots) equal to `["B"]`. -/
theorem c6_close_collection_spec (s : RegistryState) (path : String) :
    (close_collection s path).open_collections
        = s.open_collections.filter (fun p => p != path)
    ∧ path ∉ (close_collection s path).open_collections
    ∧ (close_collection s path).roots = (close_collection s path).open_collections
    ∧ (path ∉ s.open_collections ∧ s.roots = s.open_collections →
        close_collection s path = s)
    ∧ close_collection
        (finish_open_collection (finish_open_collection ⟨[], []⟩ "A").2 "B").2 "A"
        = ⟨["B"], ["B"]⟩ := by
  refine ⟨rfl, ?_, rfl, ?_, by decide⟩
  · simp [close_collection, sync_collections, List.mem_filter]
  · rintro ⟨habs, hroots⟩
    have hfilter : s.open_collections.filter (fun p => p != path) = s.open_collections := by
      apply List.filter_eq_self.mpr
      intro a ha
      simp only [bne_iff_ne, ne_eq]
      intro hcontra
      exact habs (hcontra ▸ ha)
    cases s with
    | mk oc rts =>
      simp only [close_collection, sync_collections] at *
      simp [hfilter, hroots]

/-- Witness for C6: closing the absent path `"A"` on the synchronized state
`⟨["C"], ["C"]⟩` changes nothing. -/
theorem c6_witness :
    ("A" ∉ (RegistryState.mk ["C"] ["C"]).open_collections
      ∧ (RegistryState.mk ["C"] ["C"]).roots
          = (RegistryState.mk ["C"] ["C"]).open_collections)
    ∧ close_collection ⟨["C"], ["C"]⟩ "A" = ⟨["C"], ["C"]⟩ :=
  ⟨⟨by decide, rfl⟩,
   (c6_close_collection_spec ⟨["C"], ["C"]⟩ "A").2.2.2.1 ⟨by decide, rfl⟩⟩

end Cartero
